import Mathlib

/-!
Verification of the unified-llm-client core: the unified data model
(types.py), the capability gate (providers/base.py), the dispatcher
(client.py) and the three backend adapters (providers/openai.py,
providers/anthropic.py, providers/together.py).  Python values are
shallowly embedded: dicts used as JSON payloads become ordered
association lists over a `Json` value type, exceptions become
`Except UErr`, async generators of stream events become the finite
list of events they yield for a given list of transport lines.
-/

namespace UnifiedLLM

/-! ## JSON values

Python `dict`/`list`/`str`/numeric/bool/None values as produced by
`json.loads` and consumed by `json` payload builders.  Objects keep key
order (Python dicts are insertion ordered); numbers are modelled as
rationals (the claims under verification only ever compare payload keys
and string contents, never float arithmetic). -/

inductive Json where
  | null : Json
  | bool (b : Bool) : Json
  | num (q : ℚ) : Json
  | str (s : String) : Json
  | arr (elems : List Json) : Json
  | obj (members : List (String × Json)) : Json

/-- Lookup in a JSON object, as Python `dict.get(key)`: `none` both when
the key is absent and when the value is not an object (the adapters only
call this on parsed objects; on a non-dict Python would raise, a case no
decoded SSE payload of the claims reaches).  `json.loads` keeps the last
of duplicate keys, so the lookup prefers the latest binding. -/
def dictGet (j : Json) (key : String) : Option Json :=
  match j with
  | Json.obj members => lookupLastMember members key
  | _ => none
where
  lookupLastMember : List (String × Json) → String → Option Json
    | [], _ => none
    | kv :: rest, k =>
      match lookupLastMember rest k with
      | some v => some v
      | none => if kv.1 = k then some kv.2 else none

/-! ## Python string helpers

`str.strip`, `str.startswith`, slicing, `str.join` and
`sorted(set(...))` modelled structurally over the character list of a
`String`, so every use kernel-evaluates on concrete inputs. -/

/-- Whitespace for `str.strip` (space, tab, newline, carriage return —
the whitespace SSE lines can carry). -/
def isPyWs (c : Char) : Bool :=
  c = ' ' || c = '\t' || c = '\n' || c = '\r'

def dropWsLeft : List Char → List Char
  | [] => []
  | c :: cs => if isPyWs c then dropWsLeft cs else c :: cs

/-- Python `s.strip()`. -/
def pyStrip (s : String) : String :=
  String.mk ((dropWsLeft ((dropWsLeft s.data).reverse)).reverse)

def startsWithChars : List Char → List Char → Bool
  | _, [] => true
  | [], _ :: _ => false
  | c :: cs, p :: ps => c = p && startsWithChars cs ps

/-- Python `s.startswith(t)`. -/
def pyStartsWith (s t : String) : Bool :=
  startsWithChars s.data t.data

/-- Python `s[n:]` (characters, as Python indexes by code point). -/
def pyDrop (s : String) (n : Nat) : String :=
  String.mk (s.data.drop n)

/-- Python `sep.join(parts)`. -/
def pyJoin (sep : String) : List String → String
  | [] => ""
  | [s] => s
  | s :: rest => s ++ sep ++ pyJoin sep rest

/-- Code-point comparison of strings, as Python `<=` on `str`. -/
def pyStrLe (a b : String) : Bool :=
  charsLe a.data b.data
where
  charsLe : List Char → List Char → Bool
    | [], _ => true
    | _ :: _, [] => false
    | c :: cs, d :: ds =>
      if c.toNat < d.toNat then true
      else if d.toNat < c.toNat then false
      else charsLe cs ds

def insertSorted (x : String) : List String → List String
  | [] => [x]
  | y :: ys => if pyStrLe x y then x :: y :: ys else y :: insertSorted x ys

/-- Ascending sort of strings (insertion sort); with `List.eraseDups`
this models Python `sorted(set(xs))`. -/
def sortStrings : List String → List String
  | [] => []
  | x :: xs => insertSorted x (sortStrings xs)

/-- Python `sorted(set(xs))` for strings. -/
def sortedSet (xs : List String) : List String :=
  sortStrings xs.eraseDups

/-! ## A model of `json.loads`

Recursive-descent parser over the character list, fuelled so that it is
structurally recursive (and hence kernel-evaluates).  It covers the JSON
subset the streaming claims exercise — objects, arrays, strings with
simple escapes, integer numerals, `true`/`false`/`null` — and fails
(`none`, modelling `json.JSONDecodeError`) on anything else, in
particular on the malformed payload `{not json}` of the
error-tolerance claim. -/

def lbrace : Char := Char.ofNat 123

def rbrace : Char := Char.ofNat 125

def skipWs : List Char → List Char
  | [] => []
  | c :: cs => if isPyWs c then skipWs cs else c :: cs

/-- Translate a JSON string escape character. -/
def escChar (c : Char) : Char :=
  if c = 'n' then '\n'
  else if c = 't' then '\t'
  else if c = 'r' then '\r'
  else c

/-- Parse the body of a JSON string literal after the opening quote;
returns the decoded text and the characters after the closing quote. -/
def parseStrBody : List Char → Option (String × List Char)
  | [] => none
  | c :: cs =>
    if c = '\"' then some ("", cs)
    else if c = '\\' then
      match cs with
      | [] => none
      | e :: cs' =>
        match parseStrBody cs' with
        | some (s, rest) => some ((escChar e).toString ++ s, rest)
        | none => none
    else
      match parseStrBody cs with
      | some (s, rest) => some (c.toString ++ s, rest)
      | none => none

def takeDigits : List Char → List Char × List Char
  | [] => ([], [])
  | c :: cs =>
    if c.isDigit then
      let (ds, rest) := takeDigits cs
      (c :: ds, rest)
    else ([], c :: cs)

def digitsToNat (ds : List Char) : Nat :=
  ds.foldl (fun acc c => 10 * acc + (c.toNat - 48)) 0

/-- Parse an integer numeral (optional minus sign followed by digits). -/
def parseNum (cs : List Char) : Option (Json × List Char) :=
  match cs with
  | '-' :: rest =>
    match takeDigits rest with
    | ([], _) => none
    | (ds, rest') => some (Json.num (-(digitsToNat ds : ℚ)), rest')
  | _ =>
    match takeDigits cs with
    | ([], _) => none
    | (ds, rest') => some (Json.num ((digitsToNat ds : ℚ)), rest')

/-- Parsing modes: a single value, the members of an object after `{`
(first key pending), or the items of an array after `[` (first item
pending). -/
inductive PMode where
  | value : PMode
  | objMembers : PMode
  | arrItems : PMode

/-- The fuelled parser core.  In `value` mode it parses one JSON value;
in `objMembers` (resp. `arrItems`) mode it parses `"k": v, …}` (resp.
`v, …]`) and returns the object (resp. array). -/
def parseV : Nat → PMode → List Char → Option (Json × List Char)
  | 0, _, _ => none
  | Nat.succ fuel, PMode.value, cs =>
    match skipWs cs with
    | [] => none
    | c :: rest =>
      if c = lbrace then
        match skipWs rest with
        | d :: rest' =>
          if d = rbrace then some (Json.obj [], rest')
          else parseV fuel PMode.objMembers (d :: rest')
        | [] => none
      else if c = '[' then
        match skipWs rest with
        | ']' :: rest' => some (Json.arr [], rest')
        | rest' => parseV fuel PMode.arrItems rest'
      else if c = '\"' then
        match parseStrBody rest with
        | some (s, rest') => some (Json.str s, rest')
        | none => none
      else
        match c :: rest with
        | 't' :: 'r' :: 'u' :: 'e' :: rest' => some (Json.bool true, rest')
        | 'f' :: 'a' :: 'l' :: 's' :: 'e' :: rest' => some (Json.bool false, rest')
        | 'n' :: 'u' :: 'l' :: 'l' :: rest' => some (Json.null, rest')
        | cs' => if c = '-' || c.isDigit then parseNum cs' else none
  | Nat.succ fuel, PMode.objMembers, cs =>
    match skipWs cs with
    | '\"' :: rest =>
      match parseStrBody rest with
      | some (k, rest1) =>
        match skipWs rest1 with
        | ':' :: rest2 =>
          match parseV fuel PMode.value rest2 with
          | some (v, rest3) =>
            match skipWs rest3 with
            | ',' :: rest4 =>
              match parseV fuel PMode.objMembers rest4 with
              | some (Json.obj kvs, rest5) => some (Json.obj ((k, v) :: kvs), rest5)
              | _ => none
            | d :: rest4 =>
              if d = rbrace then some (Json.obj [(k, v)], rest4) else none
            | [] => none
          | none => none
        | _ => none
      | none => none
    | _ => none
  | Nat.succ fuel, PMode.arrItems, cs =>
    match parseV fuel PMode.value cs with
    | some (v, rest) =>
      match skipWs rest with
      | ',' :: rest2 =>
        match parseV fuel PMode.arrItems rest2 with
        | some (Json.arr vs, rest3) => some (Json.arr (v :: vs), rest3)
        | _ => none
      | ']' :: rest2 => some (Json.arr [v], rest2)
      | _ => none
    | none => none

/-- Model of Python `json.loads`: parse one value and require only
whitespace after it; `none` models `json.JSONDecodeError`. -/
def json_loads (s : String) : Option Json :=
  match parseV (2 * s.length + 4) PMode.value s.data with
  | some (j, rest) => if skipWs rest = [] then some j else none
  | none => none

/-! ## Unified data model (types.py) -/

/-- `Literal["system", "user", "assistant"]` of `Message.role`. -/
inductive Role where
  | system : Role
  | user : Role
  | assistant : Role
deriving DecidableEq

/-- The wire spelling of a role. -/
def Role.toStr : Role → String
  | Role.system => "system"
  | Role.user => "user"
  | Role.assistant => "assistant"

/-- `Message` of types.py: a single chat message. -/
structure Message where
  role : Role
  content : String
deriving DecidableEq

/-- `ToolMode = Literal["off", "auto", "required"]`. -/
inductive ToolMode where
  | off : ToolMode
  | auto : ToolMode
  | required : ToolMode
deriving DecidableEq

/-- `ThinkingMode = Literal["off", "on"]`. -/
inductive ThinkingMode where
  | off : ThinkingMode
  | on : ThinkingMode
deriving DecidableEq

/-- `ToolDef` of types.py: a JSON-schema tool declaration. -/
structure ToolDef where
  name : String
  description : Option String := none
  json_schema : Json := Json.obj []

/-- `ChatRequest` of types.py.  `temperature` is a Python float used
only as an opaque payload value, modelled as a rational; `max_tokens`
is a Python int. -/
structure ChatRequest where
  provider : String
  model : String
  messages : List Message
  tools : List ToolDef := []
  tool_mode : ToolMode := ToolMode.off
  thinking : ThinkingMode := ThinkingMode.off
  temperature : Option ℚ := none
  max_tokens : Option Int := none

/-- `ModelCapabilities` of providers/base.py (the `tools` tuple as a
list). -/
structure ModelCapabilities where
  tools : List String
  streaming : Bool
  thinking : Bool
deriving DecidableEq

/-- `StreamEvent.type` of types.py. -/
inductive StreamEventType where
  | text_delta : StreamEventType
  | done : StreamEventType
deriving DecidableEq

/-- `StreamEvent` of types.py. -/
structure StreamEvent where
  type : StreamEventType
  text : Option String := none
  raw : Option Json := none

/-! ## Errors (errors.py)

The exception hierarchy as a discriminable variant type.
`toolNotAvailable` carries the raw list passed at the raise site;
`UErr.pyMessage` reproduces the `__init__` message formatting, where
`ToolNotAvailableError` joins `sorted(set(tools))`. -/

inductive UErr where
  | unsupportedProvider (provider : String) : UErr
  | unsupportedFeature (feature : String) : UErr
  | providerError (provider : String) (message : String) : UErr
  | toolNotAvailable (provider : String) (tools : List String) : UErr
deriving DecidableEq

/-- The exception message each `__init__` of errors.py formats. -/
def UErr.pyMessage : UErr → String
  | UErr.unsupportedProvider p => "Provider '" ++ p ++ "' is not available."
  | UErr.unsupportedFeature f => "Feature '" ++ f ++ "' is not supported."
  | UErr.providerError p m => p ++ ": " ++ m
  | UErr.toolNotAvailable p ts =>
      p ++ ": tool(s) not available: " ++ pyJoin (", ") (sortedSet ts)

/-- The deduplicated-sorted tool list a `ToolNotAvailableError` message
reports (`", ".join(sorted(set(tools)))` of errors.py). -/
def UErr.reportedTools : UErr → Option (List String)
  | UErr.toolNotAvailable _ ts => some (sortedSet ts)
  | _ => none

/-! ## Capability gate (`ensure_capabilities` of providers/base.py) -/

/-- The wildcard entry of `ModelCapabilities.tools`. -/
def toolWildcard : String := "*"

/-- Emptiness of a list is decidable without equality on the elements
(needed because `ToolDef` carries an opaque `Json` schema). -/
instance decListEqNil {α : Type} (l : List α) : Decidable (l = []) :=
  match l with
  | [] => Decidable.isTrue rfl
  | _ :: _ => Decidable.isFalse (fun h => List.noConfusion h)

/-- The local `missing` list of `ensure_capabilities`: requested tool
names absent from `caps.tools`. -/
def missingToolNames (req : ChatRequest) (caps : ModelCapabilities) : List String :=
  (req.tools.map ToolDef.name).filter (fun n => ¬ caps.tools.contains n)

/-- The tool block of `ensure_capabilities` (base.py lines 46-53). -/
def toolsCheck (req : ChatRequest) (caps : ModelCapabilities) : Except UErr Unit :=
  if req.tool_mode ≠ ToolMode.off ∧ req.tools ≠ [] then
    if caps.tools = [] then
      Except.error (UErr.toolNotAvailable req.provider (req.tools.map ToolDef.name))
    else
      if ¬ caps.tools.contains toolWildcard then
        if missingToolNames req caps ≠ [] then
          Except.error (UErr.toolNotAvailable req.provider (missingToolNames req caps))
        else Except.ok ()
      else Except.ok ()
  else Except.ok ()

/-- The thinking block of `ensure_capabilities` (base.py lines 55-56). -/
def thinkingCheck (req : ChatRequest) (caps : ModelCapabilities) : Except UErr Unit :=
  if req.thinking ≠ ThinkingMode.off ∧ caps.thinking = false then
    Except.error (UErr.unsupportedFeature ("thinking"))
  else Except.ok ()

/-- `ensure_capabilities(req, caps)` of providers/base.py: the tool
check runs first and, as in the source, a tool failure pre-empts the
thinking check. -/
def ensure_capabilities (req : ChatRequest) (caps : ModelCapabilities) : Except UErr Unit := do
  toolsCheck req caps
  thinkingCheck req caps

/-! ## Payload helpers

A vendor JSON body is the ordered association list the Python dict
building produces (base keys, then the conditional assignments, then
`payload.update(...)` entries, in source order). -/

def hasKey (payload : List (String × Json)) (key : String) : Bool :=
  payload.any (fun kv => kv.1 == key)

/-- Key presence through a fallible payload builder (`false` when the
builder raised). -/
def exceptHasKey (p : Except UErr (List (String × Json))) (key : String) : Bool :=
  match p with
  | Except.ok payload => hasKey payload key
  | Except.error _ => false

def lookupJson : List (String × Json) → String → Option Json
  | [], _ => none
  | kv :: rest, k => if kv.1 = k then some kv.2 else lookupJson rest k

/-- The SSE payload marker `"data:"`. -/
def dataTag : String := "data:"

/-- The SSE framing marker `"event:"` (skipped by the Together loop). -/
def eventTag : String := "event:"

/-- The SSE termination sentinel `"[DONE]"`. -/
def doneSentinel : String := "[DONE]"

/-! ## OpenAI adapter (providers/openai.py) -/

namespace OpenAIProvider

/-- `tuple(supported_tools or ("*",))` of `__init__`: `None` or an
empty iterable falls back to the wildcard tuple. -/
def init_supported_tools (supported_tools : Option (List String)) : List String :=
  match supported_tools with
  | none => [toolWildcard]
  | some ts => if ts = [] then [toolWildcard] else ts

/-- `capabilities(model)`: static, ignores the model string. -/
def capabilities (supported_tools : List String) (_model : String) : ModelCapabilities :=
  { tools := supported_tools, streaming := true, thinking := true }

/-- `_serialize_message`. -/
def serialize_message (message : Message) : Json :=
  Json.obj [(("role"), Json.str message.role.toStr), (("content"), Json.str message.content)]

/-- `_serialize_tools(tools, tool_mode)`.  The `required` branch reads
`tools[0].name`; its call site guards `req.tools` non-empty, so the
`head?` default is unreachable there. -/
def serialize_tools (tools : List ToolDef) (tool_mode : ToolMode) : List (String × Json) :=
  let tool_payload := tools.map (fun t => Json.obj
    [(("type"), Json.str ("function")),
     (("function"), Json.obj
       [(("name"), Json.str t.name),
        (("description"), Json.str (t.description.getD (""))),
        (("parameters"), t.json_schema)])])
  [(("tools"), Json.arr tool_payload)] ++
    (match tool_mode with
     | ToolMode.auto => [(("tool_choice"), Json.str ("auto"))]
     | ToolMode.required =>
       [(("tool_choice"), Json.obj
         [(("type"), Json.str ("function")),
          (("function"), Json.obj
            [(("name"), Json.str ((tools.head?.getD { name := "" }).name))])])]
     | ToolMode.off => [])

/-- `_build_payload(req)`: base keys, optional temperature/max_tokens,
then the tool declarations exactly when `tool_mode != "off"` and
`tools` is non-empty. -/
def build_payload (req : ChatRequest) : List (String × Json) :=
  [(("model"), Json.str req.model),
   (("messages"), Json.arr (req.messages.map serialize_message))]
  ++ (match req.temperature with
      | some t => [(("temperature"), Json.num t)]
      | none => [])
  ++ (match req.max_tokens with
      | some n => [(("max_tokens"), Json.num ((n : Int) : ℚ))]
      | none => [])
  ++ (if req.tool_mode ≠ ToolMode.off ∧ req.tools ≠ [] then
        serialize_tools req.tools req.tool_mode
      else [])

/-- `_extract_delta_text(event)`: `choices[0].delta.content` when it is
a string, else the empty string.  (On a payload whose `choices` is a
non-list, or whose member is a non-dict, the Python raises; no decoded
SSE line of the claims produces such a payload, and the model returns
the empty string there.) -/
def extract_delta_text (event : Json) : String :=
  match dictGet event ("choices") with
  | some (Json.arr (c0 :: _)) =>
    let delta := (dictGet c0 ("delta")).getD (Json.obj [])
    match dictGet delta ("content") with
    | some (Json.str s) => s
    | _ => ""
  | _ => ""

/-- The SSE decoding loop of `stream` (openai.py lines 86-108) applied
to the list of transport lines: blank lines and lines whose stripped
form lacks the `data:` marker yield nothing; `[DONE]` emits `done` and
returns (no later line is read); a non-JSON payload is skipped; a
parsed payload emits `text_delta` exactly when the extracted chunk is
non-empty. -/
def decodeSSE : List String → List StreamEvent
  | [] => []
  | line :: rest =>
    if line = "" then decodeSSE rest
    else
      let l := pyStrip line
      if ¬ pyStartsWith l dataTag then decodeSSE rest
      else
        let data_str := pyStrip (pyDrop l 5)
        if data_str = doneSentinel then [{ type := StreamEventType.done }]
        else
          match json_loads data_str with
          | none => decodeSSE rest
          | some event =>
            let chunk := extract_delta_text event
            if chunk = "" then decodeSSE rest
            else { type := StreamEventType.text_delta, text := some chunk, raw := some event }
                 :: decodeSSE rest

end OpenAIProvider

/-! ## Together adapter (providers/together.py) -/

namespace TogetherProvider

/-- `tuple(supported_tools or ())` of `__init__`: the default is the
empty tuple (Together advertises no tool support by default). -/
def init_supported_tools (supported_tools : Option (List String)) : List String :=
  supported_tools.getD []

/-- `capabilities(model)`: static, no streaming restriction, no
thinking. -/
def capabilities (supported_tools : List String) (_model : String) : ModelCapabilities :=
  { tools := supported_tools, streaming := true, thinking := false }

/-- `_serialize_message`. -/
def serialize_message (message : Message) : Json :=
  Json.obj [(("role"), Json.str message.role.toStr), (("content"), Json.str message.content)]

/-- `_build_payload(req)`: model, messages and the optional
temperature/max_tokens — the Together builder attaches no tool
declarations at all. -/
def build_payload (req : ChatRequest) : List (String × Json) :=
  [(("model"), Json.str req.model),
   (("messages"), Json.arr (req.messages.map serialize_message))]
  ++ (match req.temperature with
      | some t => [(("temperature"), Json.num t)]
      | none => [])
  ++ (match req.max_tokens with
      | some n => [(("max_tokens"), Json.num ((n : Int) : ℚ))]
      | none => [])

/-- `_extract_delta_text(event)`: `choices[0].delta.content`, falling
back to `choices[0].message.content` when the delta text is absent or
not a string. -/
def extract_delta_text (event : Json) : String :=
  match dictGet event ("choices") with
  | some (Json.arr (c0 :: _)) =>
    let delta := (dictGet c0 ("delta")).getD (Json.obj [])
    match dictGet delta ("content") with
    | some (Json.str s) => s
    | _ =>
      let msg := (dictGet c0 ("message")).getD (Json.obj [])
      match dictGet msg ("content") with
      | some (Json.str s) => s
      | _ => ""
  | _ => ""

/-- The SSE decoding loop of `stream` (together.py lines 74-98): like
the OpenAI loop but with an explicit skip of `event:` framing lines
and the message-level fallback in extraction. -/
def decodeSSE : List String → List StreamEvent
  | [] => []
  | line :: rest =>
    if line = "" then decodeSSE rest
    else
      let l := pyStrip line
      if pyStartsWith l eventTag then decodeSSE rest
      else if ¬ pyStartsWith l dataTag then decodeSSE rest
      else
        let data_str := pyStrip (pyDrop l 5)
        if data_str = doneSentinel then [{ type := StreamEventType.done }]
        else
          match json_loads data_str with
          | none => decodeSSE rest
          | some event =>
            let chunk := extract_delta_text event
            if chunk = "" then decodeSSE rest
            else { type := StreamEventType.text_delta, text := some chunk, raw := some event }
                 :: decodeSSE rest

end TogetherProvider

/-! ## Anthropic adapter (providers/anthropic.py) -/

namespace AnthropicProvider

/-- `tuple(supported_tools or ("*",))` of `__init__`. -/
def init_supported_tools (supported_tools : Option (List String)) : List String :=
  match supported_tools with
  | none => [toolWildcard]
  | some ts => if ts = [] then [toolWildcard] else ts

/-- `capabilities(model)`: static; streaming is disabled for this
adapter. -/
def capabilities (supported_tools : List String) (_model : String) : ModelCapabilities :=
  { tools := supported_tools, streaming := false, thinking := true }

/-- The collection loop of `_split_system`: contents of every message
whose role is `system` (in order), and the remaining messages (in
order). -/
def splitSystemParts : List Message → List String × List Message
  | [] => ([], [])
  | m :: rest =>
    let (parts, others) := splitSystemParts rest
    if m.role = Role.system then (m.content :: parts, others) else (parts, m :: others)

/-- `_split_system(messages)`: newline-joined system contents and the
non-system messages.  Note the source folds every `system` message
wherever it occurs, not only a leading prefix. -/
def split_system (messages : List Message) : String × List Message :=
  let (parts, rest) := splitSystemParts messages
  (pyJoin ("\n") parts, rest)

/-- `_serialize_message`: accepts only user/assistant roles, raising
`ProviderError` otherwise (anthropic.py lines 94-102). -/
def serialize_message (message : Message) : Except UErr Json :=
  if message.role ≠ Role.user ∧ message.role ≠ Role.assistant then
    Except.error (UErr.providerError ("anthropic") ("Unsupported role: " ++ message.role.toStr))
  else
    Except.ok (Json.obj
      [(("role"), Json.str message.role.toStr),
       (("content"), Json.arr
         [Json.obj [(("type"), Json.str ("text")), (("text"), Json.str message.content)]])])

/-- `_serialize_tools(tools, tool_mode)`. -/
def serialize_tools (tools : List ToolDef) (tool_mode : ToolMode) : List (String × Json) :=
  let payload_tools := tools.map (fun t => Json.obj
    [(("name"), Json.str t.name),
     (("description"), Json.str (t.description.getD (""))),
     (("input_schema"), t.json_schema)])
  [(("tools"), Json.arr payload_tools)] ++
    (match tool_mode with
     | ToolMode.auto => [(("tool_choice"), Json.obj [(("type"), Json.str ("auto"))])]
     | ToolMode.required => [(("tool_choice"), Json.obj [(("type"), Json.str ("any"))])]
     | ToolMode.off => [])

/-- The list comprehension `[self._serialize_message(m) for m in msgs]`:
serializes in order, propagating the first raise. -/
def serializeMessages : List Message → Except UErr (List Json)
  | [] => Except.ok []
  | m :: rest => do
    let j ← serialize_message m
    let js ← serializeMessages rest
    Except.ok (j :: js)

/-- Python `req.max_tokens or 512`: `None` and `0` are falsy and fall
back to the default. -/
def pyOrInt (x : Option Int) (d : Int) : Int :=
  match x with
  | some n => if n = 0 then d else n
  | none => d

/-- `_build_payload(req)`: splits the system messages out, serializes
the rest (which can raise on an unsupported role), always attaches
`max_tokens` (`req.max_tokens or 512`), attaches `system` only when
the joined text is non-empty, `temperature` only when present, and the
tool payload only when `tool_mode != "off"` and `tools` non-empty. -/
def build_payload (req : ChatRequest) : Except UErr (List (String × Json)) := do
  let serialized ← serializeMessages (split_system req.messages).2
  Except.ok (
    [(("model"), Json.str req.model),
     (("max_tokens"), Json.num ((pyOrInt req.max_tokens 512 : Int) : ℚ)),
     (("messages"), Json.arr serialized)]
    ++ (if (split_system req.messages).1 ≠ "" then
          [(("system"), Json.str (split_system req.messages).1)]
        else [])
    ++ (match req.temperature with
        | some t => [(("temperature"), Json.num t)]
        | none => [])
    ++ (if req.tool_mode ≠ ToolMode.off ∧ req.tools ≠ [] then
          serialize_tools req.tools req.tool_mode
        else []))

end AnthropicProvider

/-! ## Dispatcher (client.py)

A configured adapter is modelled by its name, its capability accessor
and its `stream` outcome (the async iterator an adapter returns,
flattened to the event list it would yield); the dispatcher never looks
inside the latter, which is exactly what the streaming-gate claim is
about. -/

structure ProviderModel where
  name : String
  capabilities : String → ModelCapabilities
  stream : ChatRequest → List StreamEvent

/-- Python dict assignment `d[k] = p`: replace in place or append. -/
def dictInsert : List (String × ProviderModel) → String → ProviderModel → List (String × ProviderModel)
  | [], k, p => [(k, p)]
  | kv :: rest, k, p =>
    if kv.1 = k then (kv.1, p) :: rest else kv :: dictInsert rest k p

/-- Python dict lookup (keys are unique by construction). -/
def lookupRegistry : List (String × ProviderModel) → String → Option ProviderModel
  | [], _ => none
  | kv :: rest, n => if kv.1 = n then some kv.2 else lookupRegistry rest n

structure LLMClient where
  providers : List (String × ProviderModel)

/-- `LLMClient.__init__(openai=…, anthropic=…, together=…)`: the three
optional slots are visited in that order and each passed provider is
stored under its own `name` attribute. -/
def LLMClient.ofSlots (openai anthropic together : Option ProviderModel) : LLMClient :=
  { providers :=
      ([openai, anthropic, together].filterMap id).foldl
        (fun d p => dictInsert d p.name p) [] }

/-- `get_provider(name)`: the registered provider, or
`UnsupportedProviderError(name)`. -/
def LLMClient.get_provider (c : LLMClient) (name : String) : Except UErr ProviderModel :=
  match lookupRegistry c.providers name with
  | some p => Except.ok p
  | none => Except.error (UErr.unsupportedProvider name)

/-- `LLMClient.stream(req)` (client.py lines 46-53): resolve the
adapter, query capabilities, fail with `UnsupportedFeature("streaming")`
when `caps.streaming` is false — before the capability gate and before
touching the adapter's `stream` — otherwise run the gate and delegate. -/
def LLMClient.stream (c : LLMClient) (req : ChatRequest) : Except UErr (List StreamEvent) := do
  let provider ← c.get_provider req.provider
  let caps := provider.capabilities req.model
  if ¬ caps.streaming then
    Except.error (UErr.unsupportedFeature ("streaming"))
  else do
    ensure_capabilities req caps
    Except.ok (provider.stream req)

/-! ## Claim-side definitions

Conditions and alternative readings spelled from the claims' words, to
be compared with the source-derived definitions above. -/

/-- The tool-failure condition of the C1 claim: tool mode engaged,
tools requested, and the capability set empty or missing (without
wildcard) some requested name. -/
def toolGateFails (req : ChatRequest) (caps : ModelCapabilities) : Prop :=
  req.tool_mode ≠ ToolMode.off ∧ req.tools ≠ [] ∧
    (caps.tools = [] ∨
      (toolWildcard ∉ caps.tools ∧ ∃ t ∈ req.tools, t.name ∉ caps.tools))

instance toolGateFailsDec (req : ChatRequest) (caps : ModelCapabilities) :
    Decidable (toolGateFails req caps) := by
  unfold toolGateFails
  infer_instance

/-- The C8 claim's reading of `_split_system`: fold only the leading
system messages and keep every later message, system or not. -/
def split_system_leading (messages : List Message) : String × List Message :=
  (pyJoin ("\n") ((messages.takeWhile (fun m => m.role == Role.system)).map Message.content),
   messages.dropWhile (fun m => m.role == Role.system))

/-- The C10 claim's registry semantics: the last passed provider
bearing the requested name. -/
def lastNamed : List ProviderModel → String → Option ProviderModel
  | [], _ => none
  | p :: ps, n =>
    match lastNamed ps n with
    | some q => some q
    | none => if p.name = n then some p else none

/-- The providers actually passed to `__init__`, in slot order. -/
def slotList (openai anthropic together : Option ProviderModel) : List ProviderModel :=
  [openai, anthropic, together].filterMap id

/-! ## Concrete inputs used by counterexamples and witnesses -/

def msgHi : Message := { role := Role.user, content := "hi" }

/-- First SSE payload line of the decoding claims. -/
def sseHe : String := "data: \x7b\"choices\":[\x7b\"delta\":\x7b\"content\":\"He\"\x7d\x7d]\x7d"

/-- Second SSE payload line of the decoding claims. -/
def sseLlo : String := "data: \x7b\"choices\":[\x7b\"delta\":\x7b\"content\":\"llo\"\x7d\x7d]\x7d"

/-- The malformed payload line of the error-tolerance claim. -/
def sseBad : String := "data: \x7bnot json\x7d"

/-- The termination line. -/
def sseDoneLine : String := "data: [DONE]"

def sseLines : List String := [sseHe, sseLlo, sseDoneLine]

def sseLinesBad : List String := [sseHe, sseBad, sseLlo, sseDoneLine]

/-- The parsed chunk behind `sseHe`. -/
def rawHe : Json :=
  Json.obj [(("choices"),
    Json.arr [Json.obj [(("delta"), Json.obj [(("content"), Json.str ("He"))])]])]

/-- The parsed chunk behind `sseLlo`. -/
def rawLlo : Json :=
  Json.obj [(("choices"),
    Json.arr [Json.obj [(("delta"), Json.obj [(("content"), Json.str ("llo"))])]])]

def doneEvent : StreamEvent := { type := StreamEventType.done }

def deltaEvent (s : String) (raw : Json) : StreamEvent :=
  { type := StreamEventType.text_delta, text := some s, raw := some raw }

/-- A request engaging both an unavailable tool and unavailable
thinking (C6 counterexample). -/
def reqBoth : ChatRequest :=
  { provider := "p", model := "m", messages := [msgHi],
    tools := [{ name := "t" }], tool_mode := ToolMode.auto,
    thinking := ThinkingMode.on }

/-- Capabilities with no tools and no thinking. -/
def capsNone : ModelCapabilities := { tools := [], streaming := true, thinking := false }

/-- C1 witness request: duplicated and unsorted missing tools. -/
def reqDup : ChatRequest :=
  { provider := "p", model := "m", messages := [msgHi],
    tools := [{ name := "b" }, { name := "a" }, { name := "b" }],
    tool_mode := ToolMode.auto }

/-- Capabilities covering only tool `a`. -/
def capsOnlyA : ModelCapabilities := { tools := ["a"], streaming := true, thinking := true }

/-- A non-streaming provider whose gate would also fail on thinking:
the C2 witness shows the streaming failure pre-empts both the gate and
the adapter. -/
def noStreamProvider : ProviderModel :=
  { name := "anthropic",
    capabilities := fun _ => { tools := [toolWildcard], streaming := false, thinking := false },
    stream := fun _ => [deltaEvent ("never") (Json.null)] }

def clientNoStream : LLMClient := LLMClient.ofSlots none (some noStreamProvider) none

/-- A request to the non-streaming provider that additionally demands
thinking (so the gate, were it run, would fail with a different
error). -/
def reqWantsStream : ChatRequest :=
  { provider := "anthropic", model := "m", messages := [msgHi],
    thinking := ThinkingMode.on }

/-- The C4 failing input: a Together deployment configured with the
tool allow-list `["demo_tool"]` and a request using that tool. -/
def reqTogetherTools : ChatRequest :=
  { provider := "together", model := "any", messages := [msgHi],
    tools := [{ name := "demo_tool" }], tool_mode := ToolMode.auto }

def capsTogetherDemo : ModelCapabilities :=
  TogetherProvider.capabilities (TogetherProvider.init_supported_tools (some ["demo_tool"])) ("any")

/-- A plain request with no optional fields (C7 counterexample). -/
def reqPlain : ChatRequest := { provider := "anthropic", model := "m", messages := [msgHi] }

/-- A conversation whose system message is not leading (C8
counterexample). -/
def msgsUserThenSystem : List Message :=
  [{ role := Role.user, content := "hi" }, { role := Role.system, content := "sys" }]

/-- A provider named `dummy` (passed in the `openai` slot in C10). -/
def dummyProvider : ProviderModel :=
  { name := "dummy",
    capabilities := fun _ => { tools := [toolWildcard], streaming := true, thinking := true },
    stream := fun _ => [] }

/-! ## Helper lemmas on the capability gate -/

theorem ensure_eq_of_toolsCheck_error (req : ChatRequest) (caps : ModelCapabilities)
    (e : UErr) (h : toolsCheck req caps = Except.error e) :
    ensure_capabilities req caps = Except.error e := by
  unfold ensure_capabilities
  rw [h]
  rfl

theorem ensure_eq_of_toolsCheck_ok (req : ChatRequest) (caps : ModelCapabilities)
    (h : toolsCheck req caps = Except.ok ()) :
    ensure_capabilities req caps = thinkingCheck req caps := by
  unfold ensure_capabilities
  rw [h]
  rfl

theorem thinkingCheck_ne_tool (req : ChatRequest) (caps : ModelCapabilities)
    (p : String) (ts : List String) :
    thinkingCheck req caps ≠ Except.error (UErr.toolNotAvailable p ts) := by
  unfold thinkingCheck
  split_ifs <;> simp

theorem missingToolNames_of_empty (req : ChatRequest) (caps : ModelCapabilities)
    (h : caps.tools = []) :
    missingToolNames req caps = req.tools.map ToolDef.name := by
  unfold missingToolNames
  rw [h]
  simp

theorem toolsCheck_fails (req : ChatRequest) (caps : ModelCapabilities)
    (h : toolGateFails req caps) :
    toolsCheck req caps =
      Except.error (UErr.toolNotAvailable req.provider (missingToolNames req caps)) := by
  obtain ⟨h1, h2, h3⟩ := h
  unfold toolsCheck
  rw [if_pos ⟨h1, h2⟩]
  by_cases hnil : caps.tools = []
  · rw [if_pos hnil, missingToolNames_of_empty req caps hnil]
  · rw [if_neg hnil]
    rcases h3 with h3 | ⟨hw, t, ht, hname⟩
    · exact absurd h3 hnil
    · have hwprop : ¬ (caps.tools.contains toolWildcard = true) := by
        simpa using hw
      rw [if_pos hwprop]
      have hmem : t.name ∈ missingToolNames req caps := by
        unfold missingToolNames
        refine List.mem_filter.mpr ⟨List.mem_map.mpr ⟨t, ht, rfl⟩, ?_⟩
        simpa using hname
      rw [if_pos (List.ne_nil_of_mem hmem)]

theorem toolsCheck_ok (req : ChatRequest) (caps : ModelCapabilities)
    (h : ¬ toolGateFails req caps) :
    toolsCheck req caps = Except.ok () := by
  unfold toolsCheck
  by_cases h12 : req.tool_mode ≠ ToolMode.off ∧ req.tools ≠ []
  · rw [if_pos h12]
    by_cases hnil : caps.tools = []
    · exact absurd ⟨h12.1, h12.2, Or.inl hnil⟩ h
    · rw [if_neg hnil]
      by_cases hw : caps.tools.contains toolWildcard = true
      · rw [if_neg (by simp [List.mem_of_elem_eq_true hw])]
      · rw [if_pos hw]
        by_cases hmiss : missingToolNames req caps ≠ []
        · exfalso
          apply h
          refine ⟨h12.1, h12.2, Or.inr ⟨by simpa using hw, ?_⟩⟩
          obtain ⟨n, hn⟩ := List.exists_mem_of_ne_nil _ hmiss
          unfold missingToolNames at hn
          obtain ⟨hmap, hpred⟩ := List.mem_filter.mp hn
          obtain ⟨t, ht, rfl⟩ := List.mem_map.mp hmap
          refine ⟨t, ht, ?_⟩
          simpa using hpred
        · rw [if_neg hmiss]
  · rw [if_neg h12]

/-! ## C1 — the tool branch of the capability gate -/

/-- C1: `ensure_capabilities` raises `ToolNotAvailable` iff the tool
mode is engaged, tools are requested, and `caps.tools` is empty or
lacks both the wildcard and some requested tool name; for
`tool_mode = off` or empty `tools` it never fails on tool grounds.  On
failure the raised list is exactly the requested names not covered by
`caps.tools`, and the list reported in the error message is its
deduplicated ascending sort. -/
theorem gate_tool_not_available_iff (req : ChatRequest) (caps : ModelCapabilities) :
    ((∃ p ts, ensure_capabilities req caps = Except.error (UErr.toolNotAvailable p ts)) ↔
      toolGateFails req caps)
    ∧ (toolGateFails req caps →
        ensure_capabilities req caps =
          Except.error (UErr.toolNotAvailable req.provider (missingToolNames req caps))
        ∧ (UErr.toolNotAvailable req.provider (missingToolNames req caps)).reportedTools
            = some (sortedSet (missingToolNames req caps))) := by
  have hfail : toolGateFails req caps →
      ensure_capabilities req caps =
        Except.error (UErr.toolNotAvailable req.provider (missingToolNames req caps)) :=
    fun hg => ensure_eq_of_toolsCheck_error req caps _ (toolsCheck_fails req caps hg)
  refine ⟨⟨?_, ?_⟩, fun hg => ⟨hfail hg, rfl⟩⟩
  · rintro ⟨p, ts, hpt⟩
    by_contra hng
    rw [ensure_eq_of_toolsCheck_ok req caps (toolsCheck_ok req caps hng)] at hpt
    exact thinkingCheck_ne_tool req caps p ts hpt
  · intro hg
    exact ⟨req.provider, missingToolNames req caps, hfail hg⟩

/-- C1 witness: requested tools `b, a, b` against capability set `[a]`
fail with the raw missing list `[b, b]`, reported deduplicated and
sorted as `[b]`. -/
theorem gate_tool_not_available_witness :
    ensure_capabilities reqDup capsOnlyA =
      Except.error (UErr.toolNotAvailable ("p") (["b", "b"]))
    ∧ (UErr.toolNotAvailable ("p") (["b", "b"])).reportedTools = some (["b"]) :=
  ⟨((gate_tool_not_available_iff reqDup capsOnlyA).2 (by decide)).1, rfl⟩

/-! ## C6 — the thinking branch of the capability gate -/

/-- C6 counterexample: on a request that also trips the tool rule, the
gate raises `ToolNotAvailable`, not `UnsupportedFeature("thinking")`,
although thinking is on and unsupported — so the claimed
unconditional iff fails. -/
theorem gate_thinking_counterexample :
    reqBoth.thinking ≠ ThinkingMode.off ∧ capsNone.thinking = false ∧
    ensure_capabilities reqBoth capsNone ≠ Except.error (UErr.unsupportedFeature ("thinking")) := by
  refine ⟨by decide, rfl, ?_⟩
  have h : ensure_capabilities reqBoth capsNone =
      Except.error (UErr.toolNotAvailable ("p") (["t"])) := rfl
  rw [h]
  simp

/-- C6 amended: the gate raises `UnsupportedFeature("thinking")` iff
thinking is requested, `caps.thinking` is false, and the tool rule
(which the source checks first) does not itself fail. -/
theorem gate_thinking_iff (req : ChatRequest) (caps : ModelCapabilities) :
    ensure_capabilities req caps = Except.error (UErr.unsupportedFeature ("thinking")) ↔
      (req.thinking ≠ ThinkingMode.off ∧ caps.thinking = false ∧ ¬ toolGateFails req caps) := by
  by_cases hg : toolGateFails req caps
  · rw [ensure_eq_of_toolsCheck_error req caps _ (toolsCheck_fails req caps hg)]
    constructor
    · intro hcontr
      exact absurd hcontr (by simp)
    · rintro ⟨-, -, hng⟩
      exact absurd hg hng
  · rw [ensure_eq_of_toolsCheck_ok req caps (toolsCheck_ok req caps hg)]
    unfold thinkingCheck
    split_ifs with hc
    · simp only [eq_self_iff_true, true_iff]
      exact ⟨hc.1, hc.2, hg⟩
    · constructor
      · intro hcontr
        exact absurd hcontr (by simp)
      · rintro ⟨hth, hcf, -⟩
        exact absurd ⟨hth, hcf⟩ hc

/-! ## C2 — the dispatcher's streaming gate -/

/-- C2: when the resolved capabilities have `streaming = false`, the
dispatcher's `stream` fails with `UnsupportedFeature("streaming")`
whatever the capability gate would say and whatever the adapter's
`stream` would return (the statement holds for every `p.stream`, so
the adapter is never contacted); when `streaming = true` it returns
the gate's error if any, and otherwise delegates to the adapter's
`stream`. -/
theorem dispatcher_stream_gate (c : LLMClient) (p : ProviderModel) (req : ChatRequest)
    (hp : c.get_provider req.provider = Except.ok p) :
    ((p.capabilities req.model).streaming = false →
      c.stream req = Except.error (UErr.unsupportedFeature ("streaming")))
    ∧ ((p.capabilities req.model).streaming = true →
      c.stream req =
        match ensure_capabilities req (p.capabilities req.model) with
        | Except.ok _ => Except.ok (p.stream req)
        | Except.error e => Except.error e) := by
  have hstream : c.stream req =
      (if ¬ (p.capabilities req.model).streaming then
        Except.error (UErr.unsupportedFeature ("streaming"))
      else do
        ensure_capabilities req (p.capabilities req.model)
        Except.ok (p.stream req)) := by
    unfold LLMClient.stream
    rw [hp]
    rfl
  constructor
  · intro h
    rw [hstream, if_pos (by simp [h])]
  · intro h
    rw [hstream, if_neg (by simp [h])]
    cases he : ensure_capabilities req (p.capabilities req.model) with
    | ok u => rfl
    | error e => rfl

/-- C2 witness: the configured non-streaming provider is rejected with
the streaming error even though the gate would also reject the request
(thinking is on and unsupported) and although its adapter `stream`
would have produced events. -/
theorem dispatcher_stream_gate_witness :
    clientNoStream.stream reqWantsStream = Except.error (UErr.unsupportedFeature ("streaming")) :=
  (dispatcher_stream_gate clientNoStream noStreamProvider reqWantsStream rfl).1 rfl

/-! ## C10 — the registry is keyed by each provider's own name -/

theorem lookupRegistry_dictInsert (d : List (String × ProviderModel)) (k : String)
    (p : ProviderModel) (n : String) :
    lookupRegistry (dictInsert d k p) n = if k = n then some p else lookupRegistry d n := by
  induction d with
  | nil =>
    unfold dictInsert lookupRegistry
    by_cases h : k = n
    · rw [if_pos h, if_pos h]
    · rw [if_neg h, if_neg h]
      rfl
  | cons kv rest ih =>
    unfold dictInsert
    by_cases hk : kv.1 = k
    · rw [if_pos hk]
      by_cases hn : k = n
      · have hkvn : kv.1 = n := hk.trans hn
        simp [lookupRegistry, hkvn, hn]
      · have hkvn : ¬ kv.1 = n := fun hc => hn (hk.symm.trans hc)
        simp [lookupRegistry, hkvn, hn]
    · rw [if_neg hk]
      by_cases hn : kv.1 = n
      · have hkn : ¬ k = n := fun hc => hk (hn.trans hc.symm)
        simp [lookupRegistry, hn, hkn]
      · simp [lookupRegistry, hn, ih]

theorem lookupRegistry_foldl (ps : List ProviderModel) (d : List (String × ProviderModel))
    (n : String) :
    lookupRegistry (ps.foldl (fun acc p => dictInsert acc p.name p) d) n =
      (match lastNamed ps n with
       | some q => some q
       | none => lookupRegistry d n) := by
  induction ps generalizing d with
  | nil => rfl
  | cons p ps ih =>
    rw [List.foldl_cons, ih, lookupRegistry_dictInsert]
    cases hl : lastNamed ps n with
    | some q => simp [lastNamed, hl]
    | none =>
      simp only [lastNamed, hl]
      by_cases hpn : p.name = n <;> simp [hpn]

theorem lastNamed_eq_none_iff (ps : List ProviderModel) (n : String) :
    lastNamed ps n = none ↔ ∀ p ∈ ps, p.name ≠ n := by
  induction ps with
  | nil => simp [lastNamed]
  | cons p ps ih =>
    simp only [lastNamed]
    cases hl : lastNamed ps n with
    | some q =>
      constructor
      · intro h
        exact Option.noConfusion h
      · intro h
        have hnone := ih.mpr (fun p' hp' => h p' (List.mem_cons_of_mem _ hp'))
        rw [hl] at hnone
        exact Option.noConfusion hnone
    | none =>
      by_cases hpn : p.name = n
      · rw [if_pos hpn]
        constructor
        · intro h
          exact Option.noConfusion h
        · intro h
          exact absurd hpn (h p (List.mem_cons_self p ps))
      · rw [if_neg hpn]
        constructor
        · intro _ p' hp'
          rcases List.mem_cons.mp hp' with hp' | hp'
          · rw [hp']
            exact hpn
          · exact ih.mp hl p' hp'
        · intro _
          rfl

theorem lastNamed_mem_name (ps : List ProviderModel) (n : String) (p : ProviderModel)
    (h : lastNamed ps n = some p) : p ∈ ps ∧ p.name = n := by
  induction ps with
  | nil => exact Option.noConfusion h
  | cons q ps ih =>
    simp only [lastNamed] at h
    cases hl : lastNamed ps n with
    | some r =>
      rw [hl] at h
      cases h
      have hr := ih hl
      exact ⟨List.mem_cons_of_mem _ hr.1, hr.2⟩
    | none =>
      rw [hl] at h
      by_cases hq : q.name = n
      · rw [if_pos hq] at h
        cases h
        exact ⟨List.mem_cons_self _ _, hq⟩
      · rw [if_neg hq] at h
        exact Option.noConfusion h

/-- C10: `get_provider` resolves by each passed provider's own `name`
attribute — the last slot (in openai, anthropic, together order) whose
provider bears the requested name wins, the returned provider is one
of the passed ones and bears the requested name, and the lookup fails
with `UnsupportedProviderError` exactly when no passed provider has
that name.  In particular a provider named `dummy` passed in the
`openai` slot is reachable as `dummy`, not as `openai`. -/
theorem registry_keyed_by_name (o a t : Option ProviderModel) (n : String) :
    ((LLMClient.ofSlots o a t).get_provider n =
      match lastNamed (slotList o a t) n with
      | some p => Except.ok p
      | none => Except.error (UErr.unsupportedProvider n))
    ∧ (∀ p, lastNamed (slotList o a t) n = some p → p ∈ slotList o a t ∧ p.name = n)
    ∧ (lastNamed (slotList o a t) n = none ↔ ∀ p ∈ slotList o a t, p.name ≠ n)
    ∧ (LLMClient.ofSlots (some dummyProvider) none none).get_provider ("dummy")
        = Except.ok dummyProvider
    ∧ (LLMClient.ofSlots (some dummyProvider) none none).get_provider ("openai")
        = Except.error (UErr.unsupportedProvider ("openai")) := by
  refine ⟨?_, fun p hp => lastNamed_mem_name _ n p hp, lastNamed_eq_none_iff _ n, rfl, rfl⟩
  show (match lookupRegistry ((slotList o a t).foldl (fun acc p => dictInsert acc p.name p) []) n with
        | some p => Except.ok p
        | none => Except.error (UErr.unsupportedProvider n)) = _
  rw [lookupRegistry_foldl]
  cases lastNamed (slotList o a t) n with
  | some q => rfl
  | none => rfl

/-! ## Helper lemmas on the SSE loops -/

theorem startsWith_head (cs : List Char) (p : Char) (ps : List Char)
    (h : startsWithChars cs (p :: ps) = true) :
    ∃ cs', cs = p :: cs' := by
  cases cs with
  | nil => simp [startsWithChars] at h
  | cons c cs' =>
    refine ⟨cs', ?_⟩
    simp [startsWithChars] at h
    rw [h.1]

/-- A line bearing the `data:` marker cannot bear the `event:` marker. -/
theorem not_event_of_data (s : String) (h : pyStartsWith s dataTag = true) :
    pyStartsWith s eventTag = false := by
  unfold pyStartsWith at h ⊢
  have hd : dataTag.data = 'd' :: ("ata:").data := rfl
  rw [hd] at h
  obtain ⟨cs', hcs⟩ := startsWith_head s.data 'd' _ h
  rw [hcs]
  have hev : eventTag.data = 'e' :: ("vent:").data := rfl
  rw [hev]
  simp [startsWithChars]

/-! ## C3 — SSE decoding of a well-formed stream -/

/-- C3: on the three-line stream the OpenAI and Together loops both
produce exactly `TextDelta("He")`, `TextDelta("llo")`, `Done` in
order; a `[DONE]` line ends decoding at once whatever follows; and a
blank line, or any line whose stripped form lacks the `data:` marker,
produces no event. -/
theorem sse_decode_sequence :
    (OpenAIProvider.decodeSSE sseLines
        = [deltaEvent ("He") rawHe, deltaEvent ("llo") rawLlo, doneEvent]
      ∧ TogetherProvider.decodeSSE sseLines
        = [deltaEvent ("He") rawHe, deltaEvent ("llo") rawLlo, doneEvent])
    ∧ (∀ rest : List String,
        OpenAIProvider.decodeSSE (sseDoneLine :: rest) = [doneEvent]
        ∧ TogetherProvider.decodeSSE (sseDoneLine :: rest) = [doneEvent])
    ∧ (∀ (line : String) (rest : List String),
        line = "" ∨ pyStartsWith (pyStrip line) dataTag = false →
        OpenAIProvider.decodeSSE (line :: rest) = OpenAIProvider.decodeSSE rest
        ∧ TogetherProvider.decodeSSE (line :: rest) = TogetherProvider.decodeSSE rest) := by
  refine ⟨⟨rfl, rfl⟩, fun rest => ⟨rfl, rfl⟩, ?_⟩
  intro line rest h
  rcases h with h | h
  · subst h
    exact ⟨rfl, rfl⟩
  · by_cases he : line = ""
    · subst he
      exact ⟨rfl, rfl⟩
    · constructor
      · simp only [OpenAIProvider.decodeSSE]
        rw [if_neg he, if_pos (by simp [h])]
      · simp only [TogetherProvider.decodeSSE]
        rw [if_neg he]
        by_cases hev : pyStartsWith (pyStrip line) eventTag = true
        · rw [if_pos hev]
        · rw [if_neg hev, if_pos (by simp [h])]

/-! ## C5 — SSE decoding tolerates a malformed payload line -/

/-- C5: inserting `data: {not json}` between the two delta lines
leaves the decoded sequence unchanged for both loops; the malformed
body indeed fails to parse; and in general a `data:` line whose body
is neither the sentinel nor valid JSON produces no event and does not
end the stream. -/
theorem sse_decode_malformed :
    (OpenAIProvider.decodeSSE sseLinesBad
        = [deltaEvent ("He") rawHe, deltaEvent ("llo") rawLlo, doneEvent]
      ∧ TogetherProvider.decodeSSE sseLinesBad
        = [deltaEvent ("He") rawHe, deltaEvent ("llo") rawLlo, doneEvent])
    ∧ json_loads (pyStrip (pyDrop (pyStrip sseBad) 5)) = none
    ∧ (∀ (line : String) (rest : List String),
        pyStartsWith (pyStrip line) dataTag = true →
        pyStrip (pyDrop (pyStrip line) 5) ≠ doneSentinel →
        json_loads (pyStrip (pyDrop (pyStrip line) 5)) = none →
        OpenAIProvider.decodeSSE (line :: rest) = OpenAIProvider.decodeSSE rest
        ∧ TogetherProvider.decodeSSE (line :: rest) = TogetherProvider.decodeSSE rest) := by
  refine ⟨⟨rfl, rfl⟩, rfl, ?_⟩
  intro line rest hdata hnotdone hbad
  have hne : line ≠ "" := by
    intro hcontr
    subst hcontr
    exact (by decide : ¬ (pyStartsWith (pyStrip ("")) dataTag = true)) hdata
  constructor
  · simp only [OpenAIProvider.decodeSSE]
    rw [if_neg hne, if_neg (by simp [hdata]), if_neg hnotdone, hbad]
  · simp only [TogetherProvider.decodeSSE]
    rw [if_neg hne, if_neg (by simp [not_event_of_data (pyStrip line) hdata]),
      if_neg (by simp [hdata]), if_neg hnotdone, hbad]

/-! ## Helper lemmas on the Anthropic builder -/

theorem splitSystemParts_eq (messages : List Message) :
    AnthropicProvider.splitSystemParts messages =
      ((messages.filter (fun m => m.role == Role.system)).map Message.content,
       messages.filter (fun m => !(m.role == Role.system))) := by
  induction messages with
  | nil => rfl
  | cons x rest ih =>
    simp only [AnthropicProvider.splitSystemParts, ih]
    by_cases hx : x.role = Role.system
    · simp [List.filter_cons, hx]
    · simp [List.filter_cons, hx]

theorem split_system_fst (messages : List Message) :
    (AnthropicProvider.split_system messages).1 =
      pyJoin ("\n") ((messages.filter (fun m => m.role == Role.system)).map Message.content) := by
  unfold AnthropicProvider.split_system
  rw [splitSystemParts_eq]

theorem split_system_snd (messages : List Message) :
    (AnthropicProvider.split_system messages).2 =
      messages.filter (fun m => !(m.role == Role.system)) := by
  unfold AnthropicProvider.split_system
  rw [splitSystemParts_eq]

theorem split_system_no_system (messages : List Message) :
    ∀ m ∈ (AnthropicProvider.split_system messages).2, ¬ m.role = Role.system := by
  intro m hm
  rw [split_system_snd] at hm
  have := (List.mem_filter.mp hm).2
  simpa using this

theorem serializeMessages_ok (msgs : List Message) (h : ∀ m ∈ msgs, ¬ m.role = Role.system) :
    ∃ serialized, AnthropicProvider.serializeMessages msgs = Except.ok serialized := by
  induction msgs with
  | nil => exact ⟨[], rfl⟩
  | cons x rest ih =>
    obtain ⟨s, hs⟩ := ih (fun m hm => h m (List.mem_cons_of_mem x hm))
    have hx : ∃ j, AnthropicProvider.serialize_message x = Except.ok j := by
      unfold AnthropicProvider.serialize_message
      cases hr : x.role with
      | system => exact absurd hr (h x (List.mem_cons_self x rest))
      | user => exact ⟨_, by rw [if_neg (by simp [hr])]⟩
      | assistant => exact ⟨_, by rw [if_neg (by simp [hr])]⟩
    obtain ⟨j, hj⟩ := hx
    refine ⟨j :: s, ?_⟩
    simp only [AnthropicProvider.serializeMessages]
    rw [hj]
    show AnthropicProvider.serializeMessages rest >>= _ = _
    rw [hs]
    rfl

/-- The exact payload the Anthropic builder produces once the
serialization of the non-system messages is known. -/
theorem anthropic_build_payload_eq (req : ChatRequest) (serialized : List Json)
    (hs : AnthropicProvider.serializeMessages (AnthropicProvider.split_system req.messages).2
      = Except.ok serialized) :
    AnthropicProvider.build_payload req = Except.ok (
      [(("model"), Json.str req.model),
       (("max_tokens"), Json.num ((AnthropicProvider.pyOrInt req.max_tokens 512 : Int) : ℚ)),
       (("messages"), Json.arr serialized)]
      ++ (if (AnthropicProvider.split_system req.messages).1 ≠ "" then
            [(("system"), Json.str (AnthropicProvider.split_system req.messages).1)]
          else [])
      ++ (match req.temperature with
          | some t => [(("temperature"), Json.num t)]
          | none => [])
      ++ (if req.tool_mode ≠ ToolMode.off ∧ req.tools ≠ [] then
            AnthropicProvider.serialize_tools req.tools req.tool_mode
          else [])) := by
  unfold AnthropicProvider.build_payload
  rw [hs]
  rfl

/-! ## C9 — the unsupported-role branch is unreachable -/

/-- C9: for every request of the typed model (whose roles can only be
system, user or assistant) the Anthropic payload construction
succeeds: `_split_system` removes every system message before
`_serialize_message` runs, so the `Unsupported role` `ProviderError`
branch can never fire. -/
theorem anthropic_role_error_unreachable (req : ChatRequest) :
    ∃ payload, AnthropicProvider.build_payload req = Except.ok payload := by
  obtain ⟨serialized, hs⟩ :=
    serializeMessages_ok _ (split_system_no_system req.messages)
  exact ⟨_, anthropic_build_payload_eq req serialized hs⟩

/-! ## C8 — system-message folding -/

theorem lookupJson_append (xs ys : List (String × Json)) (k : String) :
    lookupJson (xs ++ ys) k =
      (match lookupJson xs k with
       | some v => some v
       | none => lookupJson ys k) := by
  induction xs with
  | nil => rfl
  | cons kv rest ih =>
    simp only [List.cons_append, lookupJson]
    by_cases h : kv.1 = k
    · rw [if_pos h, if_pos h]
    · rw [if_neg h, if_neg h]
      exact ih

/-- C8 counterexample: on `user "hi"` followed by `system "sys"` the
source folds the non-leading system message into the system field and
drops it from the message list, while the claim (leading messages
only) predicts an empty system text and both messages kept. -/
theorem anthropic_system_fold_counterexample :
    AnthropicProvider.split_system msgsUserThenSystem ≠ split_system_leading msgsUserThenSystem
    ∧ AnthropicProvider.split_system msgsUserThenSystem = (("sys"), [msgHi])
    ∧ split_system_leading msgsUserThenSystem = ((""), msgsUserThenSystem) := by
  refine ⟨?_, rfl, rfl⟩
  decide

/-- C8 amended: `_split_system` folds every system message, wherever
it occurs, newline-joining their contents in order, and keeps exactly
the non-system messages in their original order; the built payload's
`messages` array is the serialization of those remaining messages and
its `system` field carries the joined text exactly when it is
non-empty. -/
theorem anthropic_system_fold (req : ChatRequest) :
    AnthropicProvider.split_system req.messages =
      (pyJoin ("\n") ((req.messages.filter (fun m => m.role == Role.system)).map Message.content),
       req.messages.filter (fun m => !(m.role == Role.system)))
    ∧ (∀ serialized,
        AnthropicProvider.serializeMessages
            (req.messages.filter (fun m => !(m.role == Role.system))) = Except.ok serialized →
        ∃ payload, AnthropicProvider.build_payload req = Except.ok payload
          ∧ lookupJson payload ("messages") = some (Json.arr serialized)
          ∧ lookupJson payload ("system") =
              (if (AnthropicProvider.split_system req.messages).1 = "" then none
               else some (Json.str (AnthropicProvider.split_system req.messages).1))) := by
  constructor
  · exact Prod.ext (split_system_fst req.messages) (split_system_snd req.messages)
  · intro serialized hs
    rw [← split_system_snd req.messages] at hs
    refine ⟨_, anthropic_build_payload_eq req serialized hs, rfl, ?_⟩
    rw [lookupJson_append, lookupJson_append, lookupJson_append]
    by_cases hsys : (AnthropicProvider.split_system req.messages).1 = ""
    · rw [if_pos hsys, if_neg (not_not_intro hsys)]
      cases htemp : req.temperature with
      | none =>
        by_cases htool : req.tool_mode ≠ ToolMode.off ∧ req.tools ≠ []
        · rw [if_pos htool]
          cases req.tool_mode <;> rfl
        · rw [if_neg htool]
          rfl
      | some t =>
        by_cases htool : req.tool_mode ≠ ToolMode.off ∧ req.tools ≠ []
        · rw [if_pos htool]
          cases req.tool_mode <;> rfl
        · rw [if_neg htool]
          rfl
    · rw [if_neg hsys, if_pos hsys]
      rfl

/-! ## C7 — optional temperature / max-tokens attachment -/

theorem hasKey_append (xs ys : List (String × Json)) (k : String) :
    hasKey (xs ++ ys) k = (hasKey xs k || hasKey ys k) := by
  simp [hasKey]

theorem hasKey_openai_tools_part (ts : List ToolDef) (tm : ToolMode) :
    hasKey (OpenAIProvider.serialize_tools ts tm) ("temperature") = false
    ∧ hasKey (OpenAIProvider.serialize_tools ts tm) ("max_tokens") = false := by
  cases tm <;> exact ⟨rfl, rfl⟩

theorem hasKey_anthropic_tools_part (ts : List ToolDef) (tm : ToolMode) :
    hasKey (AnthropicProvider.serialize_tools ts tm) ("temperature") = false := by
  cases tm <;> rfl

/-- Key presence in a `base ++ temperature? ++ max_tokens? ++ tools`
body, given that neither the base keys nor the tool keys collide with
the optional ones. -/
theorem hasKey_optional_parts (base tools : List (String × Json))
    (temp : Option ℚ) (maxtok : Option Int)
    (hbT : hasKey base ("temperature") = false) (hbM : hasKey base ("max_tokens") = false)
    (htT : hasKey tools ("temperature") = false) (htM : hasKey tools ("max_tokens") = false) :
    hasKey (base
      ++ (match temp with
          | some t => [(("temperature"), Json.num t)]
          | none => [])
      ++ (match maxtok with
          | some n => [(("max_tokens"), Json.num ((n : Int) : ℚ))]
          | none => [])
      ++ tools) ("temperature") = temp.isSome
    ∧ hasKey (base
      ++ (match temp with
          | some t => [(("temperature"), Json.num t)]
          | none => [])
      ++ (match maxtok with
          | some n => [(("max_tokens"), Json.num ((n : Int) : ℚ))]
          | none => [])
      ++ tools) ("max_tokens") = maxtok.isSome := by
  constructor
  · rw [hasKey_append, hasKey_append, hasKey_append, hbT, htT]
    cases temp <;> cases maxtok <;> simp [hasKey]
  · rw [hasKey_append, hasKey_append, hasKey_append, hbM, htM]
    cases temp <;> cases maxtok <;> simp [hasKey]

/-- C7 counterexample: the Anthropic builder attaches a `max_tokens`
key (defaulted to 512) to a request whose `max_tokens` is absent. -/
theorem anthropic_max_tokens_counterexample :
    reqPlain.max_tokens = none
    ∧ exceptHasKey (AnthropicProvider.build_payload reqPlain) ("max_tokens") = true :=
  ⟨rfl, rfl⟩

/-- C7 amended: the OpenAI and Together bodies carry `temperature` and
`max_tokens` exactly when the request supplies them; the Anthropic
body carries `temperature` exactly when supplied but always carries
`max_tokens` (defaulting to 512 when the request's value is absent —
or zero, through Python's falsy `or`). -/
theorem payload_optional_fields (req : ChatRequest) :
    (hasKey (OpenAIProvider.build_payload req) ("temperature") = req.temperature.isSome
      ∧ hasKey (OpenAIProvider.build_payload req) ("max_tokens") = req.max_tokens.isSome)
    ∧ (hasKey (TogetherProvider.build_payload req) ("temperature") = req.temperature.isSome
      ∧ hasKey (TogetherProvider.build_payload req) ("max_tokens") = req.max_tokens.isSome)
    ∧ (exceptHasKey (AnthropicProvider.build_payload req) ("temperature") = req.temperature.isSome
      ∧ exceptHasKey (AnthropicProvider.build_payload req) ("max_tokens") = true) := by
  have htoolsO : hasKey (if req.tool_mode ≠ ToolMode.off ∧ req.tools ≠ [] then
      OpenAIProvider.serialize_tools req.tools req.tool_mode else []) ("temperature") = false
      ∧ hasKey (if req.tool_mode ≠ ToolMode.off ∧ req.tools ≠ [] then
      OpenAIProvider.serialize_tools req.tools req.tool_mode else []) ("max_tokens") = false := by
    by_cases htool : req.tool_mode ≠ ToolMode.off ∧ req.tools ≠ []
    · rw [if_pos htool]
      exact hasKey_openai_tools_part req.tools req.tool_mode
    · rw [if_neg htool]
      exact ⟨rfl, rfl⟩
  refine ⟨?_, ?_, ?_⟩
  · unfold OpenAIProvider.build_payload
    exact hasKey_optional_parts _ _ req.temperature req.max_tokens rfl rfl htoolsO.1 htoolsO.2
  · have h := hasKey_optional_parts
      [(("model"), Json.str req.model),
       (("messages"), Json.arr (req.messages.map TogetherProvider.serialize_message))]
      [] req.temperature req.max_tokens rfl rfl rfl rfl
    rw [List.append_nil] at h
    exact h
  · obtain ⟨serialized, hs⟩ :=
      serializeMessages_ok _ (split_system_no_system req.messages)
    have hpl := anthropic_build_payload_eq req serialized hs
    have hsysT : hasKey (if (AnthropicProvider.split_system req.messages).1 ≠ "" then
        [(("system"), Json.str (AnthropicProvider.split_system req.messages).1)]
        else []) ("temperature") = false := by
      by_cases hsys : (AnthropicProvider.split_system req.messages).1 = ""
      · rw [if_neg (not_not_intro hsys)]
        rfl
      · rw [if_pos hsys]
        rfl
    have htoolsT : hasKey (if req.tool_mode ≠ ToolMode.off ∧ req.tools ≠ [] then
        AnthropicProvider.serialize_tools req.tools req.tool_mode else []) ("temperature") = false := by
      by_cases htool : req.tool_mode ≠ ToolMode.off ∧ req.tools ≠ []
      · rw [if_pos htool]
        exact hasKey_anthropic_tools_part req.tools req.tool_mode
      · rw [if_neg htool]
        rfl
    constructor
    · rw [hpl]
      show hasKey _ ("temperature") = _
      rw [hasKey_append, hasKey_append, hasKey_append, hsysT, htoolsT]
      have hbase : hasKey [(("model"), Json.str req.model),
          (("max_tokens"), Json.num ((AnthropicProvider.pyOrInt req.max_tokens 512 : Int) : ℚ)),
          (("messages"), Json.arr serialized)] ("temperature") = false := rfl
      rw [hbase]
      cases req.temperature <;> simp [hasKey]
    · rw [hpl]
      show hasKey _ ("max_tokens") = _
      rw [hasKey_append, hasKey_append, hasKey_append]
      have hbase : hasKey [(("model"), Json.str req.model),
          (("max_tokens"), Json.num ((AnthropicProvider.pyOrInt req.max_tokens 512 : Int) : ℚ)),
          (("messages"), Json.arr serialized)] ("max_tokens") = true := rfl
      rw [hbase]
      simp

/-! ## C4 — the Together adapter silently drops requested tools -/

/-- C4 (failing input evaluated): a Together deployment configured
with the allow-list `["demo_tool"]` passes the capability gate for a
request that uses that tool, yet the vendor body the Together builder
produces has neither a `tools` nor a `tool_choice` key — the
declarations are silently dropped; the OpenAI and Anthropic builders
attach both keys for the same request. -/
theorem together_drops_tools :
    ensure_capabilities reqTogetherTools capsTogetherDemo = Except.ok ()
    ∧ reqTogetherTools.tool_mode ≠ ToolMode.off
    ∧ reqTogetherTools.tools ≠ []
    ∧ hasKey (TogetherProvider.build_payload reqTogetherTools) ("tools") = false
    ∧ hasKey (TogetherProvider.build_payload reqTogetherTools) ("tool_choice") = false
    ∧ hasKey (OpenAIProvider.build_payload reqTogetherTools) ("tools") = true
    ∧ hasKey (OpenAIProvider.build_payload reqTogetherTools) ("tool_choice") = true
    ∧ exceptHasKey (AnthropicProvider.build_payload reqTogetherTools) ("tools") = true
    ∧ exceptHasKey (AnthropicProvider.build_payload reqTogetherTools) ("tool_choice") = true :=
  ⟨rfl, by decide, by decide, rfl, rfl, rfl, rfl, rfl, rfl⟩

end UnifiedLLM

